import Mathlib

/-!
Shallow embedding of the LLM inference-queue analyzer
(`pkg/analyzer/queueanalyzer.go`, `pkg/analyzer/types.go`) and proofs about it.

Modelling conventions:
* Go `float32` values are modelled as exact rationals `ℚ`; Go `int` as `ℤ`.
  In `ℚ` division by zero yields `0` (IEEE float32 yields `±Inf`); the one
  place where a zero divisor can actually occur is analysed explicitly.
* Go pointer fields are modelled as plain values; the nil-pointer clauses of
  the validation checks are vacuously satisfied in the embedding.
* The external queueing model (`pkg/queue.MM1ModelStateDependent`) and the
  external root finder (`pkg/utils.BinarySearch`) belong to another module
  and are out of scope; they are modelled as abstract function parameters.
  In Go, `Solve` mutates the model and the accessors are then read back; this
  solve-then-read sequence is modelled as a pure function from the solve
  arguments to the tuple of accessor values, faithful to the deterministic,
  single-threaded use the analyzer makes of the solver.
* Go errors are `fmt.Errorf` strings; only their kind matters here, so they
  are modelled as an inductive error kind.
-/

namespace LLMQueue

/-- Values read back from the queueing model's accessors after `Solve`. -/
structure SolvedStats where
  isValid : Bool
  avgNumInServers : ℚ
  avgServTime : ℚ
  throughput : ℚ
  avgRespTime : ℚ
  avgWaitTime : ℚ
deriving DecidableEq

/-- Abstract external solver: from the model-construction data (occupancy
upper bound, service-rate profile) and the `Solve` arguments (arrival rate,
precision) to the post-solve accessor values. -/
def Solver : Type := ℤ → List ℚ → ℚ → ℚ → SolvedStats

/-- External queueing model `queue.MM1ModelStateDependent`, as visible to the
analyzer: its construction data plus its (abstract, deterministic) solver. -/
structure MM1ModelStateDependent where
  occupancyUpperBound : ℤ
  servRate : List ℚ
  solveFn : ℚ → ℚ → SolvedStats

/-- `PrefillParms` of `types.go`: prefill time = gamma + delta·inputTokens·batchSize. -/
structure PrefillParms where
  Gamma : ℚ
  Delta : ℚ
deriving DecidableEq

/-- `DecodeParms` of `types.go`: decode time = alpha + beta·batchSize. -/
structure DecodeParms where
  Alpha : ℚ
  Beta : ℚ
deriving DecidableEq

/-- `ServiceParms` of `types.go`. -/
structure ServiceParms where
  Prefill : PrefillParms
  Decode : DecodeParms
deriving DecidableEq

/-- `RequestSize` of `types.go`. -/
structure RequestSize where
  AvgInputTokens : ℤ
  AvgOutputTokens : ℤ
deriving DecidableEq

/-- `Configuration` of `types.go`. -/
structure Configuration where
  MaxBatchSize : ℤ
  MaxQueueSize : ℤ
  ServiceParms : ServiceParms
deriving DecidableEq

/-- `RateRange` of `types.go` (requests/sec). -/
structure RateRange where
  Min : ℚ
  Max : ℚ
deriving DecidableEq

/-- `QueueAnalyzer` of `types.go`. -/
structure QueueAnalyzer where
  MaxBatchSize : ℤ
  MaxQueueSize : ℤ
  ServiceParms : ServiceParms
  RequestSize : RequestSize
  Model : MM1ModelStateDependent
  RateRange : RateRange

/-- `AnalysisMetrics` of `types.go`. -/
structure AnalysisMetrics where
  Throughput : ℚ
  AvgRespTime : ℚ
  AvgWaitTime : ℚ
  AvgNumInServ : ℚ
  AvgPrefillTime : ℚ
  AvgTokenTime : ℚ
  MaxRate : ℚ
  Rho : ℚ
deriving DecidableEq

/-- `TargetPerf` of `types.go`. -/
structure TargetPerf where
  TargetTTFT : ℚ
  TargetITL : ℚ
  TargetTPS : ℚ
deriving DecidableEq

/-- `TargetRate` of `types.go`. -/
structure TargetRate where
  RateTargetTTFT : ℚ
  RateTargetITL : ℚ
  RateTargetTPS : ℚ
deriving DecidableEq

/-- `Epsilon` of `types.go`: small disturbance around a value. -/
def Epsilon : ℚ := 1 / 1000

/-- `StabilitySafetyFraction` of `types.go`. -/
def StabilitySafetyFraction : ℚ := 1 / 10

/-- Kind of each `fmt.Errorf` error the analyzer can return. -/
inductive AnalyzerError where
  | invalidConfig
  | invalidWorkload
  | invalidTarget
  | invalidRate
  | rateOutOfRange
  | modelDivergence
  | sizeTTFTFailed
  | sizeITLFailed
deriving DecidableEq

/-- `Configuration.check` of `part_000` (nil-pointer clauses are vacuous in
the value embedding). -/
def Configuration.check (c : Configuration) : Except AnalyzerError Unit :=
  if c.MaxBatchSize ≤ 0 ∨ c.MaxQueueSize < 0 then .error .invalidConfig else .ok ()

/-- `RequestSize.check` of `part_000`. -/
def RequestSize.check (rq : RequestSize) : Except AnalyzerError Unit :=
  if rq.AvgInputTokens < 0 ∨ rq.AvgOutputTokens < 1 then .error .invalidWorkload else .ok ()

/-- `TargetPerf.check` of `part_000`. -/
def TargetPerf.check (targetPerf : TargetPerf) : Except AnalyzerError Unit :=
  if targetPerf.TargetITL < 0 ∨ targetPerf.TargetTTFT < 0 ∨ targetPerf.TargetTPS < 0 then
    .error .invalidTarget
  else .ok ()

/-- `PrefillParms.PrefillTime` of `queueanalyzer.go`. -/
def PrefillParms.PrefillTime (p : PrefillParms) (avgInputTokens : ℤ) (batchSize : ℚ) : ℚ :=
  if avgInputTokens = 0 then 0
  else p.Gamma + p.Delta * (avgInputTokens : ℚ) * batchSize

/-- `DecodeParms.DecodeTime` of `queueanalyzer.go`. -/
def DecodeParms.DecodeTime (p : DecodeParms) (batchSize : ℚ) : ℚ :=
  p.Alpha + p.Beta * batchSize

/-- `EffectiveConcurrency` of `queueanalyzer.go`. -/
def EffectiveConcurrency (avgServiceTime : ℚ) (serviceParms : ServiceParms)
    (requestSize : RequestSize) (maxBatchSize : ℤ) : ℚ :=
  let tokens : ℚ := ((requestSize.AvgOutputTokens - 1 : ℤ) : ℚ)
  let numerator := avgServiceTime - (serviceParms.Prefill.Gamma + serviceParms.Decode.Alpha * tokens)
  let denominator := serviceParms.Prefill.Delta * (requestSize.AvgInputTokens : ℚ)
      + serviceParms.Decode.Beta * tokens
  let n := numerator / denominator
  min (max n 0) ((maxBatchSize : ℤ) : ℚ)

/-- Entry `n` of the state-dependent service-rate profile computed by the loop
in `BuildModel`: `servRate[n-1] = n / (prefillTime + (outTokens-1)·decodeTime)`. -/
def servRateAt (parms : ServiceParms) (requestSize : RequestSize) (n : ℤ) : ℚ :=
  (n : ℚ) /
    (parms.Prefill.PrefillTime requestSize.AvgInputTokens (n : ℚ)
      + ((requestSize.AvgOutputTokens - 1 : ℤ) : ℚ) * parms.Decode.DecodeTime (n : ℚ))

/-- The full `servRate` slice built by the loop in `BuildModel`, entries for
n = 1..maxBatchSize. -/
def servRateList (parms : ServiceParms) (requestSize : RequestSize) (maxBatchSize : ℤ) : List ℚ :=
  (List.range maxBatchSize.toNat).map (fun k : ℕ => servRateAt parms requestSize ((k : ℤ) + 1))

/-- `BuildModel` of `queueanalyzer.go`, parameterized by the abstract external
solver that `queue.NewMM1ModelStateDependent` attaches to the model. -/
def BuildModel (solver : Solver) (qConfig : Configuration) (requestSize : RequestSize) :
    QueueAnalyzer :=
  let servRate := servRateList qConfig.ServiceParms requestSize qConfig.MaxBatchSize
  let lambdaMin := servRate.getD 0 0 * Epsilon
  let lambdaMax := servRate.getD (qConfig.MaxBatchSize.toNat - 1) 0 * (1 - Epsilon)
  { MaxBatchSize := qConfig.MaxBatchSize
    MaxQueueSize := qConfig.MaxQueueSize
    ServiceParms := qConfig.ServiceParms
    RequestSize := requestSize
    Model :=
      { occupancyUpperBound := qConfig.MaxQueueSize + qConfig.MaxBatchSize
        servRate := servRate
        solveFn := solver (qConfig.MaxQueueSize + qConfig.MaxBatchSize) servRate }
    RateRange := { Min := lambdaMin * 1000, Max := lambdaMax * 1000 } }

/-- `NewQueueAnalyzer` of `queueanalyzer.go`. -/
def NewQueueAnalyzer (solver : Solver) (qConfig : Configuration) (requestSize : RequestSize) :
    Except AnalyzerError QueueAnalyzer :=
  match qConfig.check with
  | .error e => .error e
  | .ok _ =>
    match requestSize.check with
    | .error e => .error e
    | .ok _ => .ok (BuildModel solver qConfig requestSize)

/-- The metrics assembled at the end of `Analyze` from the post-solve model
statistics (`queueanalyzer.go`, lines 72-92). -/
def analysisResult (qa : QueueAnalyzer) (s : SolvedStats) : AnalysisMetrics :=
  let effConc := EffectiveConcurrency s.avgServTime qa.ServiceParms qa.RequestSize qa.MaxBatchSize
  { Throughput := s.throughput * 1000
    AvgRespTime := s.avgRespTime
    AvgWaitTime := s.avgWaitTime
    AvgNumInServ := s.avgNumInServers
    AvgPrefillTime := qa.ServiceParms.Prefill.PrefillTime qa.RequestSize.AvgInputTokens effConc
    AvgTokenTime := qa.ServiceParms.Decode.DecodeTime effConc
    MaxRate := qa.RateRange.Max
    Rho := min (max (s.avgNumInServers / ((qa.MaxBatchSize : ℤ) : ℚ)) 0) 1 }

/-- `QueueAnalyzer.Analyze` of `queueanalyzer.go`. -/
def QueueAnalyzer.Analyze (qa : QueueAnalyzer) (requestRate : ℚ) :
    Except AnalyzerError AnalysisMetrics :=
  if requestRate ≤ 0 then .error .invalidRate
  else if qa.RateRange.Max < requestRate then .error .rateOutOfRange
  else if (qa.Model.solveFn (requestRate / 1000) 1).isValid = false then .error .modelDivergence
  else .ok (analysisResult qa (qa.Model.solveFn (requestRate / 1000) 1))

/-- `EvalTTFT` of `queueanalyzer.go`; the Go globals `utils.Model`,
`evalServiceParms`, `evalRequestSize`, `evalMaxBatchSize` are set by `Size` to
the analyzer's own fields, so they appear here as the captured analyzer.
Returns (value, error present). -/
def EvalTTFT (qa : QueueAnalyzer) (x : ℚ) : ℚ × Bool :=
  if (qa.Model.solveFn x 1).isValid = false then (0, true)
  else
    ((qa.Model.solveFn x 1).avgWaitTime
      + qa.ServiceParms.Prefill.PrefillTime qa.RequestSize.AvgInputTokens
          (EffectiveConcurrency (qa.Model.solveFn x 1).avgServTime qa.ServiceParms
            qa.RequestSize qa.MaxBatchSize),
     false)

/-- `EvalITL` of `queueanalyzer.go`, with the same treatment of globals. -/
def EvalITL (qa : QueueAnalyzer) (x : ℚ) : ℚ × Bool :=
  if (qa.Model.solveFn x 1).isValid = false then (0, true)
  else
    (qa.ServiceParms.Decode.DecodeTime
      (EffectiveConcurrency (qa.Model.solveFn x 1).avgServTime qa.ServiceParms
        qa.RequestSize qa.MaxBatchSize),
     false)

/-- Abstract external root finder `utils.BinarySearch`:
(low, high, target, evalFn) ↦ (root, boundary indicator, error present). -/
def BSearch : Type := ℚ → ℚ → ℚ → (ℚ → ℚ × Bool) → ℚ × ℤ × Bool

/-- The TTFT branch of `Size` (lines 124-135): the per-objective rate defaults
to lambdaMax; when the target is positive it comes from the root finder, and a
negative boundary indicator or a search error aborts `Size`. -/
def lambdaStarTTFT (bs : BSearch) (qa : QueueAnalyzer) (tp : TargetPerf) :
    Except AnalyzerError ℚ :=
  if 0 < tp.TargetTTFT then
    match bs (qa.RateRange.Min / 1000) (qa.RateRange.Max / 1000) tp.TargetTTFT (EvalTTFT qa) with
    | (x, ind, e) => if ind < 0 then .error .sizeTTFTFailed
                     else if e then .error .sizeTTFTFailed
                     else .ok x
  else .ok (qa.RateRange.Max / 1000)

/-- The ITL branch of `Size` (lines 137-148). -/
def lambdaStarITL (bs : BSearch) (qa : QueueAnalyzer) (tp : TargetPerf) :
    Except AnalyzerError ℚ :=
  if 0 < tp.TargetITL then
    match bs (qa.RateRange.Min / 1000) (qa.RateRange.Max / 1000) tp.TargetITL (EvalITL qa) with
    | (x, ind, e) => if ind < 0 then .error .sizeITLFailed
                     else if e then .error .sizeITLFailed
                     else .ok x
  else .ok (qa.RateRange.Max / 1000)

/-- The TPS branch of `Size` (lines 150-154): no root-finding; a fixed safety
fraction below lambdaMax, applied only when the TPS target is positive. -/
def lambdaStarTPS (qa : QueueAnalyzer) (tp : TargetPerf) : ℚ :=
  if 0 < tp.TargetTPS then (qa.RateRange.Max / 1000) * (1 - StabilitySafetyFraction)
  else qa.RateRange.Max / 1000

/-- `QueueAnalyzer.Size` of `queueanalyzer.go`, parameterized by the abstract
external root finder. -/
def QueueAnalyzer.Size (bs : BSearch) (qa : QueueAnalyzer) (targetPerf : TargetPerf) :
    Except AnalyzerError (TargetRate × AnalysisMetrics × TargetPerf) :=
  match targetPerf.check with
  | .error e => .error e
  | .ok _ =>
    match lambdaStarTTFT bs qa targetPerf with
    | .error e => .error e
    | .ok lT =>
      match lambdaStarITL bs qa targetPerf with
      | .error e => .error e
      | .ok lI =>
        match qa.Analyze (min (min lT lI) (lambdaStarTPS qa targetPerf) * 1000) with
        | .error e => .error e
        | .ok metrics =>
          .ok ({ RateTargetTTFT := lT * 1000
                 RateTargetITL := lI * 1000
                 RateTargetTPS := lambdaStarTPS qa targetPerf * 1000 },
               metrics,
               { TargetTTFT := metrics.AvgWaitTime + metrics.AvgPrefillTime
                 TargetITL := metrics.AvgTokenTime
                 TargetTPS := metrics.Throughput * ((qa.RequestSize.AvgOutputTokens : ℤ) : ℚ) })

end LLMQueue

namespace LLMQueue

/-- A concrete deterministic solver used to exercise the embedding. -/
def solver0 : Solver := fun _ _ _ _ => ⟨true, 0, 0, 0, 0, 0⟩

/-- Concrete service parameters gamma = delta = alpha = beta = 1. -/
def parms0 : ServiceParms := ⟨⟨1, 1⟩, ⟨1, 1⟩⟩

/-- Concrete configuration: maxBatchSize 1, maxQueueSize 0. -/
def c0 : Configuration := ⟨1, 0, parms0⟩

/-- Concrete workload: 1 input token, 1 output token. -/
def w0 : RequestSize := ⟨1, 1⟩

/-- Concrete analyzer built from `c0`, `w0`. -/
def qa0 : QueueAnalyzer := BuildModel solver0 c0 w0

/-- A root-finder stub (never consulted when all targets are zero). -/
def bs0 : BSearch := fun _ _ _ _ => (0, 0, false)

/-- A root-finder stub reporting a negative boundary indicator
("target below the bounded region"). -/
def bsNeg : BSearch := fun _ _ _ _ => (0, -1, false)

/-- The metrics `Analyze qa0` produces at the rate `rateRange.Max`. -/
def m0 : AnalysisMetrics := ⟨0, 0, 0, 0, 1, 1, 999 / 2, 0⟩

/-- The target rates `Size qa0` returns when all targets are zero. -/
def tr0 : TargetRate := ⟨999 / 2, 999 / 2, 999 / 2⟩

/-- The achieved values `Size qa0` reports when all targets are zero. -/
def ach0 : TargetPerf := ⟨1, 1, 0⟩

/-- The boundary workload accepted by validation: zero input tokens and a
single output token. -/
def w10 : RequestSize := ⟨0, 1⟩

lemma servRateAt0_one : servRateAt parms0 w0 1 = 1 / 2 := by
  norm_num [servRateAt, PrefillParms.PrefillTime, DecodeParms.DecodeTime, parms0, w0]

lemma qa0_Max : qa0.RateRange.Max = 999 / 2 := by
  have h : qa0.RateRange.Max = servRateAt parms0 w0 1 * (1 - Epsilon) * 1000 := rfl
  rw [h, servRateAt0_one, Epsilon]; norm_num

lemma qa0_Min : qa0.RateRange.Min = 1 / 2 := by
  have h : qa0.RateRange.Min = servRateAt parms0 w0 1 * Epsilon * 1000 := rfl
  rw [h, servRateAt0_one, Epsilon]; norm_num

lemma qa0_parms : qa0.ServiceParms = parms0 := rfl

lemma qa0_req : qa0.RequestSize = w0 := rfl

lemma qa0_maxB : qa0.MaxBatchSize = 1 := rfl

lemma qa0_solve : ∀ x p : ℚ, qa0.Model.solveFn x p = ⟨true, 0, 0, 0, 0, 0⟩ := fun _ _ => rfl

lemma effConc0 : EffectiveConcurrency 0 parms0 w0 1 = 0 := by
  unfold EffectiveConcurrency
  norm_num [parms0, w0]

lemma analysisResult0 : analysisResult qa0 ⟨true, 0, 0, 0, 0, 0⟩ = m0 := by
  unfold analysisResult EffectiveConcurrency
  simp only [qa0_parms, qa0_req, qa0_maxB, qa0_Max]
  norm_num [m0, parms0, w0, PrefillParms.PrefillTime, DecodeParms.DecodeTime]

lemma analyze0 : qa0.Analyze (999 / 2) = .ok m0 := by
  simp only [QueueAnalyzer.Analyze, qa0_solve, qa0_Max]
  norm_num [analysisResult0]

lemma check000 : TargetPerf.check ⟨0, 0, 0⟩ = .ok () := by
  norm_num [TargetPerf.check]

lemma lamT0 : lambdaStarTTFT bs0 qa0 ⟨0, 0, 0⟩ = .ok (999 / 2000) := by
  norm_num [lambdaStarTTFT, qa0_Max]

lemma lamI0 : lambdaStarITL bs0 qa0 ⟨0, 0, 0⟩ = .ok (999 / 2000) := by
  norm_num [lambdaStarITL, qa0_Max]

lemma lamP0 : lambdaStarTPS qa0 ⟨0, 0, 0⟩ = 999 / 2000 := by
  norm_num [lambdaStarTPS, qa0_Max]

lemma size0 : QueueAnalyzer.Size bs0 qa0 ⟨0, 0, 0⟩ = .ok (tr0, m0, ach0) := by
  unfold QueueAnalyzer.Size
  simp only [check000, lamT0, lamI0, lamP0, min_self]
  norm_num [analyze0, qa0_req, w0, tr0, ach0, m0]

/-- C3: `analyze` fails with `InvalidRate` iff the request rate is ≤ 0, fails
with `RateOutOfRange` iff the rate exceeds `rateRange.max` (equality is
accepted), and otherwise succeeds provided the solved model is valid. -/
theorem analyze_error_characterization (qa : QueueAnalyzer) (requestRate : ℚ)
    (hMax : 0 ≤ qa.RateRange.Max) :
    (qa.Analyze requestRate = .error .invalidRate ↔ requestRate ≤ 0) ∧
    (qa.Analyze requestRate = .error .rateOutOfRange ↔ qa.RateRange.Max < requestRate) ∧
    ((0 < requestRate ∧ requestRate ≤ qa.RateRange.Max ∧
        (qa.Model.solveFn (requestRate / 1000) 1).isValid = true) →
      ∃ m, qa.Analyze requestRate = .ok m) := by
  by_cases h1 : requestRate ≤ 0
  · have h2 : ¬ qa.RateRange.Max < requestRate := not_lt.mpr (le_trans h1 hMax)
    simp [QueueAnalyzer.Analyze, h1, h2]
  · by_cases h2 : qa.RateRange.Max < requestRate
    · simp [QueueAnalyzer.Analyze, h1, h2]
    · by_cases h3 : (qa.Model.solveFn (requestRate / 1000) 1).isValid = false
      · simp [QueueAnalyzer.Analyze, h1, h2, h3]
      · simp [QueueAnalyzer.Analyze, h1, h2, h3]

/-- C4: every successful `analyze` returns a utilization `rho` clamped to
[0, 1], and the effective concurrency used to derive the prefill and token
times is clamped to [0, maxBatchSize]. -/
theorem analyze_rho_and_effConc_bounds (qa : QueueAnalyzer) (requestRate : ℚ)
    (m : AnalysisMetrics) (hok : qa.Analyze requestRate = .ok m)
    (hB : 0 ≤ qa.MaxBatchSize) :
    (0 ≤ m.Rho ∧ m.Rho ≤ 1) ∧
    ∃ e, e = EffectiveConcurrency ((qa.Model.solveFn (requestRate / 1000) 1).avgServTime)
          qa.ServiceParms qa.RequestSize qa.MaxBatchSize ∧
      0 ≤ e ∧ e ≤ ((qa.MaxBatchSize : ℤ) : ℚ) ∧
      m.AvgPrefillTime = qa.ServiceParms.Prefill.PrefillTime qa.RequestSize.AvgInputTokens e ∧
      m.AvgTokenTime = qa.ServiceParms.Decode.DecodeTime e := by
  unfold QueueAnalyzer.Analyze at hok
  split at hok
  · simp at hok
  split at hok
  · simp at hok
  split at hok
  · simp at hok
  have hm : analysisResult qa (qa.Model.solveFn (requestRate / 1000) 1) = m := by
    injection hok
  subst hm
  have hBQ : (0 : ℚ) ≤ ((qa.MaxBatchSize : ℤ) : ℚ) := by exact_mod_cast hB
  refine ⟨⟨?_, ?_⟩, ?_⟩
  · exact le_min (le_max_right _ 0) zero_le_one
  · exact min_le_right _ 1
  · refine ⟨EffectiveConcurrency ((qa.Model.solveFn (requestRate / 1000) 1).avgServTime)
      qa.ServiceParms qa.RequestSize qa.MaxBatchSize, rfl, ?_, ?_, rfl, rfl⟩
    · unfold EffectiveConcurrency
      exact le_min (le_max_right _ 0) hBQ
    · unfold EffectiveConcurrency
      exact min_le_right _ _

/-- C6: `EffectiveConcurrency` is a left inverse of the service-time formula:
for a workload with at least one input token and a positive inversion
denominator, applying it to
`prefillTime(inTokens, n) + (outTokens − 1)·decodeTime(n)` recovers `n`
whenever `0 ≤ n ≤ maxBatchSize`. -/
theorem effectiveConcurrency_left_inverse (parms : ServiceParms) (rs : RequestSize)
    (maxB : ℤ) (n : ℚ)
    (hin : 1 ≤ rs.AvgInputTokens)
    (hden : 0 < parms.Prefill.Delta * (rs.AvgInputTokens : ℚ)
        + parms.Decode.Beta * ((rs.AvgOutputTokens - 1 : ℤ) : ℚ))
    (hn0 : 0 ≤ n) (hnB : n ≤ ((maxB : ℤ) : ℚ)) :
    EffectiveConcurrency
      (parms.Prefill.PrefillTime rs.AvgInputTokens n
        + ((rs.AvgOutputTokens - 1 : ℤ) : ℚ) * parms.Decode.DecodeTime n)
      parms rs maxB = n := by
  have hne : rs.AvgInputTokens ≠ 0 := by omega
  unfold EffectiveConcurrency PrefillParms.PrefillTime DecodeParms.DecodeTime
  simp only [if_neg hne]
  have hkey : parms.Prefill.Gamma + parms.Prefill.Delta * (rs.AvgInputTokens : ℚ) * n
        + ((rs.AvgOutputTokens - 1 : ℤ) : ℚ) * (parms.Decode.Alpha + parms.Decode.Beta * n)
        - (parms.Prefill.Gamma + parms.Decode.Alpha * ((rs.AvgOutputTokens - 1 : ℤ) : ℚ))
      = n * (parms.Prefill.Delta * (rs.AvgInputTokens : ℚ)
        + parms.Decode.Beta * ((rs.AvgOutputTokens - 1 : ℤ) : ℚ)) := by ring
  rw [hkey, mul_div_cancel_right₀ n (ne_of_gt hden), max_eq_left hn0, min_eq_left hnB]

lemma div_affine_mono (A B m n : ℚ) (hA : 0 < A) (hB : 0 ≤ B) (hm : 0 ≤ m) (hmn : m ≤ n) :
    m / (A + B * m) ≤ n / (A + B * n) := by
  have hn : 0 ≤ n := le_trans hm hmn
  have hdm : 0 < A + B * m := by nlinarith
  have hdn : 0 < A + B * n := by nlinarith
  rw [div_le_div_iff₀ hdm hdn]
  nlinarith

lemma servRateAt_mono (parms : ServiceParms) (rs : RequestSize)
    (hγ : 0 < parms.Prefill.Gamma) (hδ : 0 < parms.Prefill.Delta)
    (hα : 0 < parms.Decode.Alpha) (hβ : 0 < parms.Decode.Beta)
    (hin0 : 0 ≤ rs.AvgInputTokens)
    (hout : 1 ≤ rs.AvgOutputTokens)
    (hnz : 1 ≤ rs.AvgInputTokens ∨ 2 ≤ rs.AvgOutputTokens)
    (m n : ℤ) (hm : 1 ≤ m) (hmn : m ≤ n) :
    servRateAt parms rs m ≤ servRateAt parms rs n := by
  unfold servRateAt PrefillParms.PrefillTime DecodeParms.DecodeTime
  have ht0 : (0 : ℚ) ≤ ((rs.AvgOutputTokens - 1 : ℤ) : ℚ) := by
    exact_mod_cast (by omega : (0:ℤ) ≤ rs.AvgOutputTokens - 1)
  have hmQ : (1 : ℚ) ≤ (m : ℚ) := by exact_mod_cast hm
  have hmnQ : (m : ℚ) ≤ (n : ℚ) := by exact_mod_cast hmn
  have hm0 : (0 : ℚ) ≤ (m : ℚ) := le_trans zero_le_one hmQ
  rcases eq_or_ne rs.AvgInputTokens 0 with h0 | h0
  · have ht1 : (1 : ℚ) ≤ ((rs.AvgOutputTokens - 1 : ℤ) : ℚ) := by
      rcases hnz with h | h
      · omega
      · exact_mod_cast (by omega : (1:ℤ) ≤ rs.AvgOutputTokens - 1)
    simp only [if_pos h0, zero_add]
    have em : ((rs.AvgOutputTokens - 1 : ℤ) : ℚ) * (parms.Decode.Alpha + parms.Decode.Beta * (m : ℚ))
        = ((rs.AvgOutputTokens - 1 : ℤ) : ℚ) * parms.Decode.Alpha
          + (((rs.AvgOutputTokens - 1 : ℤ) : ℚ) * parms.Decode.Beta) * (m : ℚ) := by ring
    have en : ((rs.AvgOutputTokens - 1 : ℤ) : ℚ) * (parms.Decode.Alpha + parms.Decode.Beta * (n : ℚ))
        = ((rs.AvgOutputTokens - 1 : ℤ) : ℚ) * parms.Decode.Alpha
          + (((rs.AvgOutputTokens - 1 : ℤ) : ℚ) * parms.Decode.Beta) * (n : ℚ) := by ring
    rw [em, en]
    exact div_affine_mono _ _ _ _ (by nlinarith) (by nlinarith) hm0 hmnQ
  · have hin1 : (1 : ℚ) ≤ (rs.AvgInputTokens : ℚ) := by
      exact_mod_cast (by omega : (1:ℤ) ≤ rs.AvgInputTokens)
    simp only [if_neg h0]
    have em : parms.Prefill.Gamma + parms.Prefill.Delta * (rs.AvgInputTokens : ℚ) * (m : ℚ)
        + ((rs.AvgOutputTokens - 1 : ℤ) : ℚ) * (parms.Decode.Alpha + parms.Decode.Beta * (m : ℚ))
        = (parms.Prefill.Gamma + ((rs.AvgOutputTokens - 1 : ℤ) : ℚ) * parms.Decode.Alpha)
          + (parms.Prefill.Delta * (rs.AvgInputTokens : ℚ)
             + ((rs.AvgOutputTokens - 1 : ℤ) : ℚ) * parms.Decode.Beta) * (m : ℚ) := by ring
    have en : parms.Prefill.Gamma + parms.Prefill.Delta * (rs.AvgInputTokens : ℚ) * (n : ℚ)
        + ((rs.AvgOutputTokens - 1 : ℤ) : ℚ) * (parms.Decode.Alpha + parms.Decode.Beta * (n : ℚ))
        = (parms.Prefill.Gamma + ((rs.AvgOutputTokens - 1 : ℤ) : ℚ) * parms.Decode.Alpha)
          + (parms.Prefill.Delta * (rs.AvgInputTokens : ℚ)
             + ((rs.AvgOutputTokens - 1 : ℤ) : ℚ) * parms.Decode.Beta) * (n : ℚ) := by ring
    rw [em, en]
    exact div_affine_mono _ _ _ _ (by nlinarith) (by nlinarith) hm0 hmnQ

lemma servRateAt_pos (parms : ServiceParms) (rs : RequestSize)
    (hγ : 0 < parms.Prefill.Gamma) (hδ : 0 < parms.Prefill.Delta)
    (hα : 0 < parms.Decode.Alpha) (hβ : 0 < parms.Decode.Beta)
    (hin0 : 0 ≤ rs.AvgInputTokens)
    (hout : 1 ≤ rs.AvgOutputTokens)
    (hnz : 1 ≤ rs.AvgInputTokens ∨ 2 ≤ rs.AvgOutputTokens)
    (n : ℤ) (hn : 1 ≤ n) :
    0 < servRateAt parms rs n := by
  unfold servRateAt PrefillParms.PrefillTime DecodeParms.DecodeTime
  have hnQ : (0 : ℚ) < (n : ℚ) := by exact_mod_cast (by omega : (0:ℤ) < n)
  have hn1 : (1 : ℚ) ≤ (n : ℚ) := by exact_mod_cast hn
  have ht0 : (0 : ℚ) ≤ ((rs.AvgOutputTokens - 1 : ℤ) : ℚ) := by
    exact_mod_cast (by omega : (0:ℤ) ≤ rs.AvgOutputTokens - 1)
  apply div_pos hnQ
  rcases eq_or_ne rs.AvgInputTokens 0 with h0 | h0
  · have ht1 : (1 : ℚ) ≤ ((rs.AvgOutputTokens - 1 : ℤ) : ℚ) := by
      rcases hnz with h | h
      · omega
      · exact_mod_cast (by omega : (1:ℤ) ≤ rs.AvgOutputTokens - 1)
    simp only [if_pos h0, zero_add]
    have h2 : 0 < parms.Decode.Alpha + parms.Decode.Beta * (n : ℚ) := by nlinarith
    exact lt_of_lt_of_le h2 (le_mul_of_one_le_left h2.le ht1)
  · have hin1 : (1 : ℚ) ≤ (rs.AvgInputTokens : ℚ) := by
      exact_mod_cast (by omega : (1:ℤ) ≤ rs.AvgInputTokens)
    simp only [if_neg h0]
    have h2 : (0:ℚ) ≤ ((rs.AvgOutputTokens - 1 : ℤ) : ℚ) * (parms.Decode.Alpha + parms.Decode.Beta * (n : ℚ)) := by
      apply mul_nonneg ht0
      nlinarith
    have h3 : (0:ℚ) < parms.Prefill.Delta * (rs.AvgInputTokens : ℚ) * (n : ℚ) :=
      mul_pos (mul_pos hδ (lt_of_lt_of_le zero_lt_one hin1)) hnQ
    linarith

lemma servRateList_length (parms : ServiceParms) (rs : RequestSize) (maxB : ℤ) :
    (servRateList parms rs maxB).length = maxB.toNat := by
  simp only [servRateList, List.length_map, List.length_range]

lemma servRateList_getElem (parms : ServiceParms) (rs : RequestSize) (maxB : ℤ) (i : ℕ)
    (hi : i < (servRateList parms rs maxB).length) :
    (servRateList parms rs maxB)[i] = servRateAt parms rs ((i : ℤ) + 1) := by
  simp only [servRateList, List.getElem_map, List.getElem_range]

/-- C5 (amended): with strictly positive service parameters and a workload
whose per-batch service time is positive (at least one input token or at
least two output tokens), the built service-rate profile is monotonically
non-decreasing in batch size and `rateRange.min < rateRange.max`. -/
theorem servRate_profile_monotone_and_range (solver : Solver) (c : Configuration)
    (w : RequestSize) (hB : 1 ≤ c.MaxBatchSize)
    (hγ : 0 < c.ServiceParms.Prefill.Gamma) (hδ : 0 < c.ServiceParms.Prefill.Delta)
    (hα : 0 < c.ServiceParms.Decode.Alpha) (hβ : 0 < c.ServiceParms.Decode.Beta)
    (hin0 : 0 ≤ w.AvgInputTokens) (hout : 1 ≤ w.AvgOutputTokens)
    (hnz : 1 ≤ w.AvgInputTokens ∨ 2 ≤ w.AvgOutputTokens) :
    ((BuildModel solver c w).Model.servRate = servRateList c.ServiceParms w c.MaxBatchSize) ∧
    (∀ (i j : ℕ) (hi : i < (servRateList c.ServiceParms w c.MaxBatchSize).length)
        (hj : j < (servRateList c.ServiceParms w c.MaxBatchSize).length), i ≤ j →
        (servRateList c.ServiceParms w c.MaxBatchSize).get ⟨i, hi⟩
          ≤ (servRateList c.ServiceParms w c.MaxBatchSize).get ⟨j, hj⟩) ∧
    (BuildModel solver c w).RateRange.Min < (BuildModel solver c w).RateRange.Max := by
  refine ⟨rfl, ?_, ?_⟩
  · intro i j hi hj hij
    simp only [List.get_eq_getElem, servRateList_getElem]
    exact servRateAt_mono c.ServiceParms w hγ hδ hα hβ hin0 hout hnz ((i : ℤ) + 1) ((j : ℤ) + 1)
      (by omega) (by omega)
  · have hlen : (servRateList c.ServiceParms w c.MaxBatchSize).length = c.MaxBatchSize.toNat :=
      servRateList_length c.ServiceParms w c.MaxBatchSize
    have h0 : 0 < (servRateList c.ServiceParms w c.MaxBatchSize).length := by
      rw [hlen]; omega
    have hlast : c.MaxBatchSize.toNat - 1 < (servRateList c.ServiceParms w c.MaxBatchSize).length := by
      rw [hlen]; omega
    have e1 : (BuildModel solver c w).RateRange.Min
        = (servRateList c.ServiceParms w c.MaxBatchSize).getD 0 0 * Epsilon * 1000 := rfl
    have e2 : (BuildModel solver c w).RateRange.Max
        = (servRateList c.ServiceParms w c.MaxBatchSize).getD (c.MaxBatchSize.toNat - 1) 0
          * (1 - Epsilon) * 1000 := rfl
    rw [e1, e2, List.getD_eq_getElem _ _ h0, List.getD_eq_getElem _ _ hlast,
      servRateList_getElem c.ServiceParms w c.MaxBatchSize 0 h0,
      servRateList_getElem c.ServiceParms w c.MaxBatchSize (c.MaxBatchSize.toNat - 1) hlast]
    have hidx : ((c.MaxBatchSize.toNat - 1 : ℕ) : ℤ) + 1 = c.MaxBatchSize := by omega
    rw [hidx]
    have hidx0 : ((0 : ℕ) : ℤ) + 1 = (1 : ℤ) := by omega
    rw [hidx0]
    have hmono : servRateAt c.ServiceParms w 1 ≤ servRateAt c.ServiceParms w c.MaxBatchSize :=
      servRateAt_mono c.ServiceParms w hγ hδ hα hβ hin0 hout hnz 1 c.MaxBatchSize le_rfl hB
    have hpos : 0 < servRateAt c.ServiceParms w 1 :=
      servRateAt_pos c.ServiceParms w hγ hδ hα hβ hin0 hout hnz 1 le_rfl
    rw [Epsilon]
    nlinarith

/-- C5 (counterexample): at the validated boundary workload with zero input
tokens and one output token (service parameters all positive), the per-batch
service time is zero, the service-rate entries collapse (division by zero:
`0` in `ℚ`, `+Inf` in float32), and `rateRange.min < rateRange.max` fails. -/
theorem servRate_range_collapse_at_boundary :
    Configuration.check c0 = .ok () ∧ RequestSize.check w10 = .ok () ∧
    (0 < parms0.Prefill.Gamma ∧ 0 < parms0.Prefill.Delta ∧
      0 < parms0.Decode.Alpha ∧ 0 < parms0.Decode.Beta) ∧
    ¬ ((BuildModel solver0 c0 w10).RateRange.Min
        < (BuildModel solver0 c0 w10).RateRange.Max) := by
  have hs : servRateAt parms0 w10 1 = 0 := by
    norm_num [servRateAt, PrefillParms.PrefillTime, DecodeParms.DecodeTime, parms0, w10]
  have e1 : (BuildModel solver0 c0 w10).RateRange.Min
      = servRateAt parms0 w10 1 * Epsilon * 1000 := rfl
  have e2 : (BuildModel solver0 c0 w10).RateRange.Max
      = servRateAt parms0 w10 1 * (1 - Epsilon) * 1000 := rfl
  refine ⟨by norm_num [Configuration.check, c0], by norm_num [RequestSize.check, w10],
    by norm_num [parms0], ?_⟩
  rw [e1, e2, hs]
  norm_num

/-- C2 (counterexample): the built `rateRange.min` is not
`serviceRate(1)·(1 − epsilon)` scaled to requests/sec; at the concrete
configuration `c0`, `w0` it is `1/2` while the claimed value is `999/2`. -/
theorem rateRange_min_not_one_minus_epsilon :
    (BuildModel solver0 c0 w0).RateRange.Min
      ≠ servRateAt parms0 w0 1 * (1 - Epsilon) * 1000 := by
  have h : (BuildModel solver0 c0 w0).RateRange.Min = 1 / 2 := qa0_Min
  rw [h, servRateAt0_one, Epsilon]
  norm_num

/-- C2 (amended): the built `rateRange` has
`min = serviceRate(1)·epsilon·1000` (a rate slightly above zero) and
`max = serviceRate(maxBatchSize)·(1 − epsilon)·1000`. -/
theorem rateRange_formula (solver : Solver) (c : Configuration) (w : RequestSize)
    (hB : 1 ≤ c.MaxBatchSize) :
    (BuildModel solver c w).RateRange.Min = servRateAt c.ServiceParms w 1 * Epsilon * 1000 ∧
    (BuildModel solver c w).RateRange.Max
      = servRateAt c.ServiceParms w c.MaxBatchSize * (1 - Epsilon) * 1000 := by
  have hlen : (servRateList c.ServiceParms w c.MaxBatchSize).length = c.MaxBatchSize.toNat :=
    servRateList_length c.ServiceParms w c.MaxBatchSize
  have h0 : 0 < (servRateList c.ServiceParms w c.MaxBatchSize).length := by rw [hlen]; omega
  have hlast : c.MaxBatchSize.toNat - 1 < (servRateList c.ServiceParms w c.MaxBatchSize).length := by
    rw [hlen]; omega
  have e1 : (BuildModel solver c w).RateRange.Min
      = (servRateList c.ServiceParms w c.MaxBatchSize).getD 0 0 * Epsilon * 1000 := rfl
  have e2 : (BuildModel solver c w).RateRange.Max
      = (servRateList c.ServiceParms w c.MaxBatchSize).getD (c.MaxBatchSize.toNat - 1) 0
        * (1 - Epsilon) * 1000 := rfl
  constructor
  · rw [e1, List.getD_eq_getElem _ _ h0,
      servRateList_getElem c.ServiceParms w c.MaxBatchSize 0 h0]
    norm_num
  · rw [e2, List.getD_eq_getElem _ _ hlast,
      servRateList_getElem c.ServiceParms w c.MaxBatchSize (c.MaxBatchSize.toNat - 1) hlast]
    have hidx : ((c.MaxBatchSize.toNat - 1 : ℕ) : ℤ) + 1 = c.MaxBatchSize := by omega
    rw [hidx]

/-- Witness for the amended C2 theorem at the concrete `c0`, `w0`. -/
theorem rateRange_formula_witness :
    (BuildModel solver0 c0 w0).RateRange.Min = servRateAt c0.ServiceParms w0 1 * Epsilon * 1000 ∧
    (BuildModel solver0 c0 w0).RateRange.Max
      = servRateAt c0.ServiceParms w0 c0.MaxBatchSize * (1 - Epsilon) * 1000 :=
  rateRange_formula solver0 c0 w0 (by norm_num [c0])

/-- C1 (counterexample): with all three targets zero, `Size` succeeds and the
chosen rate (the minimum of the three returned per-objective rates) equals
`rateRange.max` itself, which differs from
`rateRange.max·(1 − stabilitySafetyFraction)`: the 10% margin is not applied
when the TPS target is zero. -/
theorem size_all_zero_rate_not_ninety_percent :
    ∃ tr m ach, QueueAnalyzer.Size bs0 qa0 ⟨0, 0, 0⟩ = .ok (tr, m, ach) ∧
      min (min tr.RateTargetTTFT tr.RateTargetITL) tr.RateTargetTPS = qa0.RateRange.Max ∧
      qa0.RateRange.Max ≠ qa0.RateRange.Max * (1 - StabilitySafetyFraction) := by
  refine ⟨tr0, m0, ach0, size0, ?_, ?_⟩
  · rw [qa0_Max]; norm_num [tr0]
  · rw [qa0_Max, StabilitySafetyFraction]; norm_num

/-- C1 (amended): with all three targets zero, every per-objective rate
defaults to `rateRange.max` (internally `lambdaMax`), so `Size` evaluates the
final metrics exactly at `rateRange.max` — not at 90% of it. -/
theorem size_all_zero_targets (bs : BSearch) (qa : QueueAnalyzer)
    (hMax : 0 < qa.RateRange.Max)
    (hValid : (qa.Model.solveFn (qa.RateRange.Max / 1000) 1).isValid = true) :
    ∃ m, QueueAnalyzer.Size bs qa ⟨0, 0, 0⟩ =
        .ok (⟨qa.RateRange.Max, qa.RateRange.Max, qa.RateRange.Max⟩, m,
          ⟨m.AvgWaitTime + m.AvgPrefillTime, m.AvgTokenTime,
            m.Throughput * ((qa.RequestSize.AvgOutputTokens : ℤ) : ℚ)⟩) ∧
      qa.Analyze qa.RateRange.Max = .ok m := by
  have hcheck : TargetPerf.check ⟨0, 0, 0⟩ = .ok () := by norm_num [TargetPerf.check]
  have h1000 : qa.RateRange.Max / 1000 * 1000 = qa.RateRange.Max :=
    div_mul_cancel₀ _ (by norm_num)
  have hT : lambdaStarTTFT bs qa ⟨0, 0, 0⟩ = .ok (qa.RateRange.Max / 1000) := by
    norm_num [lambdaStarTTFT]
  have hI : lambdaStarITL bs qa ⟨0, 0, 0⟩ = .ok (qa.RateRange.Max / 1000) := by
    norm_num [lambdaStarITL]
  have hP : lambdaStarTPS qa ⟨0, 0, 0⟩ = qa.RateRange.Max / 1000 := by
    norm_num [lambdaStarTPS]
  have hA : qa.Analyze qa.RateRange.Max
      = .ok (analysisResult qa (qa.Model.solveFn (qa.RateRange.Max / 1000) 1)) := by
    unfold QueueAnalyzer.Analyze
    rw [if_neg (not_le.mpr hMax), if_neg (lt_irrefl _), if_neg (by simp [hValid])]
  refine ⟨analysisResult qa (qa.Model.solveFn (qa.RateRange.Max / 1000) 1), ?_, hA⟩
  unfold QueueAnalyzer.Size
  simp only [hcheck, hT, hI, hP, min_self, h1000, hA]

/-- Witness for the amended C1 theorem at the concrete analyzer `qa0`. -/
theorem size_all_zero_targets_witness :
    ∃ m, QueueAnalyzer.Size bs0 qa0 ⟨0, 0, 0⟩ =
        .ok (⟨qa0.RateRange.Max, qa0.RateRange.Max, qa0.RateRange.Max⟩, m,
          ⟨m.AvgWaitTime + m.AvgPrefillTime, m.AvgTokenTime,
            m.Throughput * ((qa0.RequestSize.AvgOutputTokens : ℤ) : ℚ)⟩) ∧
      qa0.Analyze qa0.RateRange.Max = .ok m :=
  size_all_zero_targets bs0 qa0 (by rw [qa0_Max]; norm_num) (by rw [qa0_solve])

lemma min_mul_1000 (a b : ℚ) : min a b * 1000 = min (a * 1000) (b * 1000) := by
  rcases le_total a b with h | h
  · rw [min_eq_left h, min_eq_left (by nlinarith)]
  · rw [min_eq_right h, min_eq_right (by nlinarith)]

lemma size_ok_inversion (bs : BSearch) (qa : QueueAnalyzer) (tp : TargetPerf)
    (tr : TargetRate) (m : AnalysisMetrics) (ach : TargetPerf)
    (hok : QueueAnalyzer.Size bs qa tp = .ok (tr, m, ach)) :
    ∃ lT lI, lambdaStarTTFT bs qa tp = .ok lT ∧ lambdaStarITL bs qa tp = .ok lI ∧
      tr = ⟨lT * 1000, lI * 1000, lambdaStarTPS qa tp * 1000⟩ ∧
      qa.Analyze (min (min lT lI) (lambdaStarTPS qa tp) * 1000) = .ok m ∧
      ach = ⟨m.AvgWaitTime + m.AvgPrefillTime, m.AvgTokenTime,
        m.Throughput * ((qa.RequestSize.AvgOutputTokens : ℤ) : ℚ)⟩ := by
  unfold QueueAnalyzer.Size at hok
  cases hc : TargetPerf.check tp with
  | error e => simp [hc] at hok
  | ok u =>
    simp only [hc] at hok
    cases hT : lambdaStarTTFT bs qa tp with
    | error e => simp [hT] at hok
    | ok lT =>
      simp only [hT] at hok
      cases hI : lambdaStarITL bs qa tp with
      | error e => simp [hI] at hok
      | ok lI =>
        simp only [hI] at hok
        cases hA : qa.Analyze (min (min lT lI) (lambdaStarTPS qa tp) * 1000) with
        | error e => simp [hA] at hok
        | ok mm =>
          simp only [hA] at hok
          injection hok with h
          simp only [Prod.mk.injEq] at h
          obtain ⟨h1, h2, h3⟩ := h
          subst h2
          exact ⟨lT, lI, rfl, rfl, h1.symm, hA, h3.symm⟩

/-- C7: every successful `size` call evaluates its final metrics at the
minimum of the three per-objective internal rates scaled by 1000, returns
exactly those three rates scaled by 1000 as the `TargetRate`, and reports
achieved values {TTFT = wait + prefill, ITL = token time,
TPS = throughput · avgOutputTokens}. -/
theorem size_ok_shape (bs : BSearch) (qa : QueueAnalyzer) (tp : TargetPerf)
    (tr : TargetRate) (m : AnalysisMetrics) (ach : TargetPerf)
    (hok : QueueAnalyzer.Size bs qa tp = .ok (tr, m, ach)) :
    ∃ lT lI, lambdaStarTTFT bs qa tp = .ok lT ∧ lambdaStarITL bs qa tp = .ok lI ∧
      tr = ⟨lT * 1000, lI * 1000, lambdaStarTPS qa tp * 1000⟩ ∧
      qa.Analyze (min (min lT lI) (lambdaStarTPS qa tp) * 1000) = .ok m ∧
      ach = ⟨m.AvgWaitTime + m.AvgPrefillTime, m.AvgTokenTime,
        m.Throughput * ((qa.RequestSize.AvgOutputTokens : ℤ) : ℚ)⟩ :=
  size_ok_inversion bs qa tp tr m ach hok

/-- Witness for C7 at the concrete analyzer `qa0` with all targets zero. -/
theorem size_ok_shape_witness :
    ∃ lT lI, lambdaStarTTFT bs0 qa0 ⟨0, 0, 0⟩ = .ok lT ∧
      lambdaStarITL bs0 qa0 ⟨0, 0, 0⟩ = .ok lI ∧
      tr0 = ⟨lT * 1000, lI * 1000, lambdaStarTPS qa0 ⟨0, 0, 0⟩ * 1000⟩ ∧
      qa0.Analyze (min (min lT lI) (lambdaStarTPS qa0 ⟨0, 0, 0⟩) * 1000) = .ok m0 ∧
      ach0 = ⟨m0.AvgWaitTime + m0.AvgPrefillTime, m0.AvgTokenTime,
        m0.Throughput * ((qa0.RequestSize.AvgOutputTokens : ℤ) : ℚ)⟩ :=
  size_ok_shape bs0 qa0 ⟨0, 0, 0⟩ tr0 m0 ach0 size0

/-- C9: round trip between `size` and `analyze` — for every successful `size`
call, running `analyze` at the rate `size` chose (the minimum of the three
returned per-objective rates) reproduces exactly the metrics `size` returned;
the embedding's solver is a pure function, so `analyze` is deterministic by
construction, as the source's contract with its solver requires. -/
theorem size_analyze_roundtrip (bs : BSearch) (qa : QueueAnalyzer) (tp : TargetPerf)
    (tr : TargetRate) (m : AnalysisMetrics) (ach : TargetPerf)
    (hok : QueueAnalyzer.Size bs qa tp = .ok (tr, m, ach)) :
    qa.Analyze (min (min tr.RateTargetTTFT tr.RateTargetITL) tr.RateTargetTPS) = .ok m := by
  obtain ⟨lT, lI, hT, hI, htr, hA, hach⟩ := size_ok_inversion bs qa tp tr m ach hok
  rw [htr]
  show qa.Analyze (min (min (lT * 1000) (lI * 1000)) (lambdaStarTPS qa tp * 1000)) = .ok m
  rw [← min_mul_1000, ← min_mul_1000]
  exact hA

/-- Witness for C9 at the concrete analyzer `qa0` with all targets zero. -/
theorem size_analyze_roundtrip_witness :
    qa0.Analyze (min (min tr0.RateTargetTTFT tr0.RateTargetITL) tr0.RateTargetTPS) = .ok m0 :=
  size_analyze_roundtrip bs0 qa0 ⟨0, 0, 0⟩ tr0 m0 ach0 size0

/-- C8: when a positive TTFT (respectively ITL) target is set and the root
finder reports a negative boundary indicator — the target lies below the
evaluated function's value even at the minimum searchable rate — `size` fails
with the corresponding target-unreachable error; being an `Except.error`, it
carries no `TargetRate`, metrics, or achieved values. -/
theorem size_target_unreachable_low (bs : BSearch) (qa : QueueAnalyzer) (tp : TargetPerf)
    (hT0 : 0 ≤ tp.TargetTTFT) (hI0 : 0 ≤ tp.TargetITL) (hP0 : 0 ≤ tp.TargetTPS) :
    (0 < tp.TargetTTFT →
      (bs (qa.RateRange.Min / 1000) (qa.RateRange.Max / 1000) tp.TargetTTFT
          (EvalTTFT qa)).2.1 < 0 →
      QueueAnalyzer.Size bs qa tp = .error .sizeTTFTFailed) ∧
    (∀ lT, lambdaStarTTFT bs qa tp = .ok lT → 0 < tp.TargetITL →
      (bs (qa.RateRange.Min / 1000) (qa.RateRange.Max / 1000) tp.TargetITL
          (EvalITL qa)).2.1 < 0 →
      QueueAnalyzer.Size bs qa tp = .error .sizeITLFailed) := by
  have hcheck : TargetPerf.check tp = .ok () := by
    unfold TargetPerf.check
    rw [if_neg (by rintro (h | h | h) <;> linarith)]
  constructor
  · intro hpos hind
    have hT : lambdaStarTTFT bs qa tp = .error .sizeTTFTFailed := by
      unfold lambdaStarTTFT
      rw [if_pos hpos]
      rcases hbs : bs (qa.RateRange.Min / 1000) (qa.RateRange.Max / 1000) tp.TargetTTFT
          (EvalTTFT qa) with ⟨x, ind, e⟩
      rw [hbs] at hind
      simp only at hind
      simp only [if_pos hind]
    unfold QueueAnalyzer.Size
    simp only [hcheck, hT]
  · intro lT hTok hpos hind
    have hI : lambdaStarITL bs qa tp = .error .sizeITLFailed := by
      unfold lambdaStarITL
      rw [if_pos hpos]
      rcases hbs : bs (qa.RateRange.Min / 1000) (qa.RateRange.Max / 1000) tp.TargetITL
          (EvalITL qa) with ⟨x, ind, e⟩
      rw [hbs] at hind
      simp only at hind
      simp only [if_pos hind]
    unfold QueueAnalyzer.Size
    simp only [hcheck, hTok, hI]

/-- Witness for C8: a root finder answering "target below the bounded region"
makes `Size` fail on a positive TTFT target and on a positive ITL target. -/
theorem size_target_unreachable_low_witness :
    QueueAnalyzer.Size bsNeg qa0 ⟨5, 0, 0⟩ = .error .sizeTTFTFailed ∧
    QueueAnalyzer.Size bsNeg qa0 ⟨0, 5, 0⟩ = .error .sizeITLFailed := by
  constructor
  · exact (size_target_unreachable_low bsNeg qa0 ⟨5, 0, 0⟩ (by norm_num) (by norm_num)
      (by norm_num)).1 (by norm_num) (by norm_num [bsNeg])
  · exact (size_target_unreachable_low bsNeg qa0 ⟨0, 5, 0⟩ (by norm_num) (by norm_num)
      (by norm_num)).2 (qa0.RateRange.Max / 1000) (by norm_num [lambdaStarTTFT])
      (by norm_num) (by norm_num [bsNeg])

/-- C10: the boundary workload with zero input tokens and one output token is
accepted by validation, yet both core divisors vanish on it: the per-batch
service-time denominator `prefillTime + (outTokens − 1)·decodeTime` used by
`BuildModel` and the inversion denominator
`delta·inTokens + beta·(outTokens − 1)` used by `EffectiveConcurrency` are
both `0` (in float32 the service rates become `+Inf`). -/
theorem boundary_workload_divisors_zero :
    RequestSize.check w10 = .ok () ∧ Configuration.check c0 = .ok () ∧
    (parms0.Prefill.PrefillTime w10.AvgInputTokens 1
      + ((w10.AvgOutputTokens - 1 : ℤ) : ℚ) * parms0.Decode.DecodeTime 1) = 0 ∧
    (parms0.Prefill.Delta * (w10.AvgInputTokens : ℚ)
      + parms0.Decode.Beta * ((w10.AvgOutputTokens - 1 : ℤ) : ℚ)) = 0 := by
  refine ⟨by norm_num [RequestSize.check, w10], by norm_num [Configuration.check, c0], ?_, ?_⟩
  · norm_num [PrefillParms.PrefillTime, DecodeParms.DecodeTime, parms0, w10]
  · norm_num [parms0, w10]

/-- Witness for C3 at the concrete analyzer `qa0` and rate 1. -/
theorem analyze_error_characterization_witness :
    (qa0.Analyze 1 = .error .invalidRate ↔ (1 : ℚ) ≤ 0) ∧
    (qa0.Analyze 1 = .error .rateOutOfRange ↔ qa0.RateRange.Max < 1) ∧
    ((0 < (1 : ℚ) ∧ (1 : ℚ) ≤ qa0.RateRange.Max ∧
        (qa0.Model.solveFn (1 / 1000) 1).isValid = true) →
      ∃ m, qa0.Analyze 1 = .ok m) :=
  analyze_error_characterization qa0 1 (by rw [qa0_Max]; norm_num)

/-- Witness for C4 at the concrete analyzer `qa0` and rate `999/2`. -/
theorem analyze_rho_and_effConc_bounds_witness :
    (0 ≤ m0.Rho ∧ m0.Rho ≤ 1) ∧
    ∃ e, e = EffectiveConcurrency ((qa0.Model.solveFn (999 / 2 / 1000) 1).avgServTime)
          qa0.ServiceParms qa0.RequestSize qa0.MaxBatchSize ∧
      0 ≤ e ∧ e ≤ ((qa0.MaxBatchSize : ℤ) : ℚ) ∧
      m0.AvgPrefillTime = qa0.ServiceParms.Prefill.PrefillTime qa0.RequestSize.AvgInputTokens e ∧
      m0.AvgTokenTime = qa0.ServiceParms.Decode.DecodeTime e :=
  analyze_rho_and_effConc_bounds qa0 (999 / 2) m0 analyze0 (by rw [qa0_maxB]; norm_num)

/-- Witness for the amended C5 theorem at the concrete `c0`, `w0`. -/
theorem servRate_profile_monotone_and_range_witness :
    ((BuildModel solver0 c0 w0).Model.servRate = servRateList c0.ServiceParms w0 c0.MaxBatchSize) ∧
    (∀ (i j : ℕ) (hi : i < (servRateList c0.ServiceParms w0 c0.MaxBatchSize).length)
        (hj : j < (servRateList c0.ServiceParms w0 c0.MaxBatchSize).length), i ≤ j →
        (servRateList c0.ServiceParms w0 c0.MaxBatchSize).get ⟨i, hi⟩
          ≤ (servRateList c0.ServiceParms w0 c0.MaxBatchSize).get ⟨j, hj⟩) ∧
    (BuildModel solver0 c0 w0).RateRange.Min < (BuildModel solver0 c0 w0).RateRange.Max :=
  servRate_profile_monotone_and_range solver0 c0 w0 (by norm_num [c0])
    (by norm_num [c0, parms0]) (by norm_num [c0, parms0]) (by norm_num [c0, parms0])
    (by norm_num [c0, parms0]) (by norm_num [w0]) (by norm_num [w0])
    (Or.inl (by norm_num [w0]))

/-- Witness for C6: the inversion recovers batch size 1 for the workload `w0`
under `parms0` with maxBatchSize 2. -/
theorem effectiveConcurrency_left_inverse_witness :
    EffectiveConcurrency
      (parms0.Prefill.PrefillTime w0.AvgInputTokens 1
        + ((w0.AvgOutputTokens - 1 : ℤ) : ℚ) * parms0.Decode.DecodeTime 1)
      parms0 w0 2 = 1 :=
  effectiveConcurrency_left_inverse parms0 w0 2 1 (by norm_num [w0])
    (by norm_num [parms0, w0]) (by norm_num) (by norm_num)

end LLMQueue
